import Mathlib

/-!
Shallow embedding of the core components of the `traffic_control_rl`
repository (a four-way signalized intersection RL environment), together
with theorems checking its natural-language specification.

Modelling conventions:
* Python floats and ints are modelled as `ℚ` and `ℕ`/`ℤ` (exact arithmetic).
* Python dictionaries keyed by direction strings are modelled as
  association lists `List (String × α)` with first-match lookup.
* `numpy` randomness is modelled by an explicit stream of rational draws.
-/

namespace TrafficRL

/-- Python `dict.get(k)` on an association list: the value of the first
entry carrying the key, if any. -/
def dictGet? {α : Type} (m : List (String × α)) (k : String) : Option α :=
  (m.find? (fun p => p.1 == k)).map (·.2)

/-- Python `dict.get(k, d)`: lookup with a default value. -/
def dictGetD {α : Type} (m : List (String × α)) (k : String) (d : α) : α :=
  (dictGet? m k).getD d

/-- Python `dict[k] = v` on an association list with unique keys: replace
the value of the entry with key `k`, or append a fresh entry at the end
(Python dicts preserve insertion order). -/
def dictSet {α : Type} : List (String × α) → String → α → List (String × α)
  | [], k, v => [(k, v)]
  | p :: rest, k, v => if p.1 = k then (k, v) :: rest else p :: dictSet rest k v

/-- Python `dict.update(overrides)`: apply every override in order. -/
def dictUpdate {α : Type} (m overrides : List (String × α)) : List (String × α) :=
  overrides.foldl (fun acc kv => dictSet acc kv.1 kv.2) m

/- The four approach directions, from core/constants.py. -/
namespace Directions

def NORTH : String := "N"

def SOUTH : String := "S"

def EAST : String := "E"

def WEST : String := "W"

def ALL : List String := ["N", "S", "E", "W"]

end Directions

/- Traffic signal state identifiers, from core/constants.py. -/
namespace SignalState

def GREEN : String := "green"

def RED : String := "red"

def ORANGE : String := "orange"

def ALL_RED : String := "all_red"

end SignalState

/- Multi-objective reward weights, from core/constants.py. -/
namespace RewardConstants

def THROUGHPUT_WEIGHT : ℚ := 1

def FAIRNESS_WEIGHT : ℚ := 1/2

def SAFETY_WEIGHT : ℚ := 100

def PEDESTRIAN_WEIGHT : ℚ := 2

def STEP_PENALTY : ℚ := -1/10

end RewardConstants

/-- `np.clip(x, lo, hi)`. -/
def npClip (x lo hi : ℚ) : ℚ := min (max x lo) hi

namespace MathUtils

/-- `core/utils.py` `MathUtils.gini_coefficient`.  `np.sort` is modelled as
an (ascending) insertion sort; `np.clip(gini, 0.0, 1.0)` as `npClip`. -/
def gini_coefficient (values : List ℚ) : ℚ :=
  if values.length = 0 then 0
  else if values.sum = 0 then 0
  else
    let sorted_vals := values.insertionSort (· ≤ ·)
    let n : ℕ := sorted_vals.length
    let numerator : ℚ := 2 * ((sorted_vals.enum.map (fun p => ((p.1 : ℚ) + 1) * p.2)).sum)
    let denominator : ℚ := (n : ℚ) * sorted_vals.sum
    npClip (numerator / denominator - ((n : ℚ) + 1) / (n : ℚ)) 0 1

end MathUtils

/-- `domain/reward_calculator.py` `HybridRewardCalculator`: the four
configured weights. -/
structure HybridRewardCalculator where
  throughput_weight : ℚ
  fairness_weight : ℚ
  safety_weight : ℚ
  pedestrian_weight : ℚ

namespace HybridRewardCalculator

/-- `HybridRewardCalculator.__init__`: weights taken from `RewardConstants`. -/
def init : HybridRewardCalculator :=
  { throughput_weight := RewardConstants.THROUGHPUT_WEIGHT
    fairness_weight := RewardConstants.FAIRNESS_WEIGHT
    safety_weight := RewardConstants.SAFETY_WEIGHT
    pedestrian_weight := RewardConstants.PEDESTRIAN_WEIGHT }

/-- Queue sizes dictionary values, as rationals. -/
def queueValues (queue_sizes : List (String × ℤ)) : List ℚ :=
  queue_sizes.map (fun e => (e.2 : ℚ))

/-- Throughput term of `calculate`: penalize queues. -/
def throughput_reward (c : HybridRewardCalculator) (queue_sizes : List (String × ℤ)) : ℚ :=
  -(queueValues queue_sizes).sum * c.throughput_weight

/-- Fairness term of `calculate`: penalize imbalance. -/
def fairness_reward (c : HybridRewardCalculator) (queue_sizes : List (String × ℤ)) : ℚ :=
  -(MathUtils.gini_coefficient (queueValues queue_sizes)) * c.fairness_weight

/-- Safety term of `calculate`: penalize risky events. -/
def safety_reward (c : HybridRewardCalculator) (risky_events : ℕ) : ℚ :=
  -(risky_events : ℚ) * c.safety_weight

/-- Pedestrian term of `calculate`: penalize waiting pedestrians. -/
def pedestrian_reward (c : HybridRewardCalculator) (pedestrian_waiting : ℕ) : ℚ :=
  -(pedestrian_waiting : ℚ) * c.pedestrian_weight

/-- `HybridRewardCalculator.calculate` (the `wait_times` argument is
accepted but unused, as in the source). -/
def calculate (c : HybridRewardCalculator) (queue_sizes : List (String × ℤ))
    (wait_times : List (String × ℚ)) (risky_events : ℕ) (pedestrian_waiting : ℕ) : ℚ :=
  throughput_reward c queue_sizes +
  fairness_reward c queue_sizes +
  safety_reward c risky_events +
  pedestrian_reward c pedestrian_waiting +
  RewardConstants.STEP_PENALTY

end HybridRewardCalculator

/-- One row of the sensor snapshot DataFrame produced by the simulator
(`base_simulator.py` documents the columns).  Columns that a row may lack
(pandas would hold `NaN` there) are modelled as `Option` fields. -/
structure SensorRow where
  object_id : String := ""
  type : String
  approach : String := ""
  distance_m : ℚ
  speed_m_s : ℚ
  movement : Option String := none
  h_val : Option ℚ := none
  priority_score : Option ℚ := none
  committed : Bool := false
  in_crosswalk : Bool := false
  wait_time : ℚ := 0
  timestamp : ℕ := 0

namespace StateEncoder

def TOP_K_OBJECTS : ℕ := 5

def FEATURES_PER_OBJECT : ℕ := 6

def SIGNAL_FEATURES : ℕ := 4

def WAIT_TIME_FEATURES : ℕ := 4

def EXTRA_FEATURES : ℕ := 2

def TOTAL_STATE_SIZE : ℕ :=
  TOP_K_OBJECTS * FEATURES_PER_OBJECT + SIGNAL_FEATURES + WAIT_TIME_FEATURES + EXTRA_FEATURES

/-- The `normalization` dictionary of `StateEncoder.__init__`. -/
structure Normalization where
  max_distance : ℚ
  max_speed : ℚ
  max_wait : ℚ
  max_priority : ℚ

/-- The default normalization dictionary of `StateEncoder.__init__`. -/
def defaultNormalization : Normalization :=
  { max_distance := 200, max_speed := 20, max_wait := 120, max_priority := 10000 }

/-- `StateEncoder._normalize`: min-max into `[0,1]`, `0.5` on a degenerate
range (`np.clip` modelled by `npClip`). -/
def normalize (value min_val max_val : ℚ) : ℚ :=
  if max_val = min_val then 1/2
  else npClip ((value - min_val) / (max_val - min_val)) 0 1

/-- Sort key used by `df.nsmallest(k, 'priority_score')`. -/
def priorityLe (a b : SensorRow) : Prop :=
  a.priority_score.getD 0 ≤ b.priority_score.getD 0

instance : DecidableRel priorityLe := fun a b => by
  unfold priorityLe; infer_instance

/-- pandas `df.nsmallest(k, 'priority_score')`: the `k` rows of smallest
priority score, ties keeping earlier rows first (stable sort, `keep`
defaults to `first`); rows whose score is missing (`NaN`) are not
selected. -/
def nsmallest (k : ℕ) (df : List SensorRow) : List SensorRow :=
  ((df.filter (fun r => r.priority_score.isSome)).insertionSort priorityLe).take k

/-- The six features `StateEncoder._encode_top_objects` emits per object. -/
def objectFeatures (nrm : Normalization) (obj : SensorRow) : List ℚ :=
  [ if obj.type = "pedestrian" then 1 else 0,
    normalize obj.distance_m 0 nrm.max_distance,
    normalize obj.speed_m_s 0 nrm.max_speed,
    normalize (obj.h_val.getD 0) 0 50,
    normalize (obj.priority_score.getD 0) 0 nrm.max_priority,
    if obj.movement.getD "straight" = "straight" then 0
    else if obj.movement.getD "straight" = "left" then 1/2 else 1 ]

/-- `StateEncoder._encode_top_objects`.  The source pads with blocks of six
zeros `while len(features) < 30`; since the feature list has length
`6 * min 5 |df|`, that is the same as padding with zeros up to 30. -/
def encode_top_objects (nrm : Normalization) (df : List SensorRow) : List ℚ :=
  if df.length = 0 then List.replicate (TOP_K_OBJECTS * FEATURES_PER_OBJECT) 0
  else
    let features := ((nsmallest TOP_K_OBJECTS df).map (objectFeatures nrm)).flatten
    features ++ List.replicate (TOP_K_OBJECTS * FEATURES_PER_OBJECT - features.length) 0

/-- One signal flag of `StateEncoder._encode_signal_state`: 1.0 when the
direction's signal is green, 0.0 otherwise (missing directions default to
red via `signal_state.get(direction, SignalState.RED)`). -/
def signalFlag (signal_state : List (String × String)) (direction : String) : ℚ :=
  if dictGetD signal_state direction SignalState.RED = SignalState.GREEN then 1 else 0

/-- `StateEncoder._encode_signal_state`. -/
def encode_signal_state (signal_state : List (String × String)) : List ℚ :=
  Directions.ALL.map (signalFlag signal_state)

/-- `StateEncoder._encode_wait_times`. -/
def encode_wait_times (nrm : Normalization) (approach_waits : List (String × ℚ)) : List ℚ :=
  Directions.ALL.map (fun d => normalize (dictGetD approach_waits d 0) 0 nrm.max_wait)

/-- `StateEncoder._encode_extra_features`: object density (count / 50,
capped at 1) and normalized time-in-phase. -/
def encode_extra_features (df : List SensorRow) (time_in_phase : ℕ) : List ℚ :=
  [min 1 ((df.length : ℚ) / 50), normalize (time_in_phase : ℚ) 0 60]

/-- `StateEncoder.encode`: concatenate the four feature groups, zero-pad
to `TOTAL_STATE_SIZE` if short, and truncate to `TOTAL_STATE_SIZE`. -/
def encode (nrm : Normalization) (sensor_df : List SensorRow)
    (signal_state : List (String × String)) (approach_waits : List (String × ℚ))
    (time_in_phase : ℕ) : List ℚ :=
  let state :=
    encode_top_objects nrm sensor_df ++
    encode_signal_state signal_state ++
    encode_wait_times nrm approach_waits ++
    encode_extra_features sensor_df time_in_phase
  (state ++ List.replicate (TOTAL_STATE_SIZE - state.length) 0).take TOTAL_STATE_SIZE

end StateEncoder

/-- `infrastructure/environment/signal_controller.py` `SignalController`. -/
structure SignalController where
  signal_state : List (String × String)
  time_in_phase : ℚ
  phase_duration : ℚ
  phase_history : List String

namespace SignalController

/-- `SignalController.__init__`: every direction red, zero timing. -/
def init : SignalController :=
  { signal_state := Directions.ALL.map (fun d => (d, SignalState.RED))
    time_in_phase := 0
    phase_duration := 0
    phase_history := [] }

/-- `SignalController.set_signal(direction, state, duration)`: raise
`ValueError` on an unknown direction or on a state outside
`[GREEN, RED, ORANGE]`, otherwise record the color and duration and reset
`time_in_phase` to zero. -/
def set_signal (c : SignalController) (direction state : String) (duration : ℚ) :
    Except String SignalController :=
  if direction ∉ Directions.ALL then
    .error ("Invalid direction: " ++ direction)
  else if state ∉ [SignalState.GREEN, SignalState.RED, SignalState.ORANGE] then
    .error ("Invalid signal state: " ++ state)
  else
    .ok { c with
          signal_state := dictSet c.signal_state direction state
          phase_duration := duration
          time_in_phase := 0 }

/-- `SignalController.update(dt)`: advance `time_in_phase`, clamped at the
phase duration. -/
def update (c : SignalController) (dt : ℚ) : SignalController :=
  let t := c.time_in_phase + dt
  { c with time_in_phase := if c.phase_duration ≤ t then c.phase_duration else t }

/-- `SignalController.reset`. -/
def reset (c : SignalController) : SignalController :=
  { c with
    signal_state := Directions.ALL.map (fun d => (d, SignalState.RED))
    time_in_phase := 0
    phase_duration := 0
    phase_history := [] }

end SignalController

/-- Explicit stream of random draws, standing in for the `np.random`
global generator: `idx` counts how many draws were consumed. -/
structure Rng where
  stream : ℕ → ℚ
  idx : ℕ

/-- Consume one draw.  A draw models `np.random.random()` (a value in
`[0,1)`), or the standardized part of a `uniform`/`normal` draw. -/
def Rng.draw (r : Rng) : ℚ × Rng :=
  (r.stream r.idx, { r with idx := r.idx + 1 })

/-- `simple_simulator.py` `Vehicle` dataclass. -/
structure Vehicle where
  vehicle_id : String
  approach : String
  distance_m : ℚ
  speed_m_s : ℚ
  movement : String
  created_at : ℕ
  committed : Bool := false

/-- Pedestrian record of `SimpleTrafficSimulator._spawn_pedestrians`. -/
structure Pedestrian where
  ped_id : String
  approach : String
  distance_m : ℚ
  speed_m_s : ℚ
  in_crosswalk : Bool
  created_at : ℕ

/-- Emergency-vehicle record of
`SimpleTrafficSimulator._spawn_emergency_vehicles`. -/
structure EmergencyVehicle where
  emerg_id : String
  approach : String
  distance_m : ℚ
  speed_m_s : ℚ
  created_at : ℕ

/-- The `config` mapping accepted by `SimpleTrafficSimulator.__init__`
(spawn-rate overrides per approach). -/
structure SimConfig where
  spawn_rates : List (String × ℚ) := []
  pedestrian_spawn_rates : List (String × ℚ) := []

/-- State owned by `SimpleTrafficSimulator` (including the fields set by
`BaseSimulator.__init__`). -/
structure SimState where
  seed : ℕ
  spawn_rates : List (String × ℚ)
  pedestrian_spawn_rates : List (String × ℚ)
  vehicles : List Vehicle
  pedestrians : List Pedestrian
  emergency_vehicles : List EmergencyVehicle
  current_timestep : ℕ
  spawned_count : ℕ
  cleared_count : ℕ
  rng : Rng

namespace SimpleTrafficSimulator

/-- Default vehicle spawn rates of `SimpleTrafficSimulator.__init__`. -/
def defaultSpawnRates : List (String × ℚ) :=
  [("N", 1/2), ("S", 1/2), ("E", 1/2), ("W", 1/2)]

/-- Default pedestrian spawn rates of `SimpleTrafficSimulator.__init__`. -/
def defaultPedSpawnRates : List (String × ℚ) :=
  [("N", 1/5), ("S", 1/5), ("E", 1/5), ("W", 1/5)]

/-- `SimpleTrafficSimulator.__init__(seed, config)`: set defaults, then
apply the configuration overrides via `dict.update`.  No validation is
performed on the configured rates. -/
def init (seed : ℕ) (config : Option SimConfig) (stream : ℕ → ℚ) : SimState :=
  { seed := seed
    spawn_rates :=
      dictUpdate defaultSpawnRates ((config.map SimConfig.spawn_rates).getD [])
    pedestrian_spawn_rates :=
      dictUpdate defaultPedSpawnRates ((config.map SimConfig.pedestrian_spawn_rates).getD [])
    vehicles := []
    pedestrians := []
    emergency_vehicles := []
    current_timestep := 0
    spawned_count := 0
    cleared_count := 0
    rng := { stream := stream, idx := 0 } }

/-- `SimpleTrafficSimulator.reset`: clear all tracked objects and reset
all counters (the spawn-rate configuration and the random generator are
untouched). -/
def reset (s : SimState) : SimState :=
  { s with
    vehicles := []
    pedestrians := []
    emergency_vehicles := []
    current_timestep := 0
    spawned_count := 0
    cleared_count := 0 }

/-- `SimpleTrafficSimulator._vehicle_to_dict`. -/
def vehicle_to_dict (t : ℕ) (v : Vehicle) : SensorRow :=
  let f_val := v.distance_m
  let h_val := v.distance_m / max v.speed_m_s (1/100)
  { object_id := v.vehicle_id
    type := "vehicle"
    approach := v.approach
    distance_m := max 0 v.distance_m
    speed_m_s := max 0 v.speed_m_s
    movement := some v.movement
    h_val := some h_val
    priority_score := some (f_val + h_val)
    committed := v.committed
    in_crosswalk := false
    wait_time := ((t - v.created_at : ℕ) : ℚ) }

/-- Movement drawn in `_spawn_vehicles`: 80% straight, 10% left, 10%
right, from one `np.random.random()` draw. -/
def drawMovement (r : ℚ) : String :=
  if r < 4/5 then "straight" else if r < 9/10 then "left" else "right"

/-- One approach of the `_spawn_vehicles` loop.  `np.random.uniform(50,150)`
is modelled as `50 + 100 * d` and `np.random.normal(10, 2)` as
`10 + 2 * z`, where `d` and `z` are stream draws. -/
def spawnVehicleAt (approach : String) (acc : SimState × List SensorRow) :
    SimState × List SensorRow :=
  let (s, rows) := acc
  let (u, rng1) := s.rng.draw
  if u < dictGetD s.spawn_rates approach 0 then
    let (r, rng2) := rng1.draw
    let movement := drawMovement r
    let (d, rng3) := rng2.draw
    let (z, rng4) := rng3.draw
    let vehicle : Vehicle :=
      { vehicle_id := "V_" ++ toString s.current_timestep ++ "_" ++ approach ++ "_" ++
          toString s.vehicles.length
        approach := approach
        distance_m := 50 + 100 * d
        speed_m_s := 10 + 2 * z
        movement := movement
        created_at := s.current_timestep }
    ({ s with
        vehicles := s.vehicles ++ [vehicle]
        spawned_count := s.spawned_count + 1
        rng := rng4 },
      rows ++ [vehicle_to_dict s.current_timestep vehicle])
  else
    ({ s with rng := rng1 }, rows)

/-- `SimpleTrafficSimulator._spawn_vehicles`. -/
def spawn_vehicles (s : SimState) : SimState × List SensorRow :=
  Directions.ALL.foldl (fun acc a => spawnVehicleAt a acc) (s, [])

/-- One approach of the `_spawn_pedestrians` loop;
`np.random.uniform(10, 30)` is modelled as `10 + 20 * d`. -/
def spawnPedestrianAt (approach : String) (acc : SimState × List SensorRow) :
    SimState × List SensorRow :=
  let (s, rows) := acc
  let (u, rng1) := s.rng.draw
  if u < dictGetD s.pedestrian_spawn_rates approach 0 then
    let (d, rng2) := rng1.draw
    let ped : Pedestrian :=
      { ped_id := "P_" ++ toString s.current_timestep ++ "_" ++ approach
        approach := approach
        distance_m := 10 + 20 * d
        speed_m_s := 6/5
        in_crosswalk := false
        created_at := s.current_timestep }
    ({ s with
        pedestrians := s.pedestrians ++ [ped]
        spawned_count := s.spawned_count + 1
        rng := rng2 },
      rows ++ [{ object_id := ped.ped_id
                 type := "pedestrian"
                 approach := approach
                 distance_m := ped.distance_m
                 speed_m_s := ped.speed_m_s
                 in_crosswalk := false }])
  else
    ({ s with rng := rng1 }, rows)

/-- `SimpleTrafficSimulator._spawn_pedestrians`. -/
def spawn_pedestrians (s : SimState) : SimState × List SensorRow :=
  Directions.ALL.foldl (fun acc a => spawnPedestrianAt a acc) (s, [])

/-- The `np.random.choice(['N','S','E','W'])` draw of
`_spawn_emergency_vehicles`, modelled as a uniform pick from one draw. -/
def drawApproach (c : ℚ) : String :=
  if c < 1/4 then "N" else if c < 1/2 then "S" else if c < 3/4 then "E" else "W"

/-- `SimpleTrafficSimulator._spawn_emergency_vehicles`: 1% chance per
tick; `np.random.uniform(80, 120)` is modelled as `80 + 40 * d`. -/
def spawn_emergency_vehicles (s : SimState) : SimState × List SensorRow :=
  let (u, rng1) := s.rng.draw
  if u < 1/100 then
    let (c, rng2) := rng1.draw
    let approach := drawApproach c
    let (d, rng3) := rng2.draw
    let emerg : EmergencyVehicle :=
      { emerg_id := "EMG_" ++ toString s.current_timestep ++ "_" ++ approach
        approach := approach
        distance_m := 80 + 40 * d
        speed_m_s := 18
        created_at := s.current_timestep }
    ({ s with
        emergency_vehicles := s.emergency_vehicles ++ [emerg]
        spawned_count := s.spawned_count + 1
        rng := rng3 },
      [{ object_id := emerg.emerg_id
         type := "emergency"
         approach := approach
         distance_m := emerg.distance_m
         speed_m_s := emerg.speed_m_s }])
  else
    ({ s with rng := rng1 }, [])

/-- Per-vehicle body of `_update_positions`: signal-dependent
acceleration, position update, committed-zone check.  Green accelerates
(2 m/s², capped at 12), orange decelerates (1 m/s², floored at 5), any
other signal decelerates strongly (3 m/s², floored at 0). -/
def updateVehicleSignal (signal : String) (dt : ℚ) (v : Vehicle) : Vehicle :=
  let speed :=
    if signal = SignalState.GREEN then min (v.speed_m_s + 2 * dt) 12
    else if signal = SignalState.ORANGE then max (v.speed_m_s - 1 * dt) 5
    else max (v.speed_m_s - 3 * dt) 0
  let distance := v.distance_m - speed * dt
  { v with
    speed_m_s := speed
    distance_m := distance
    committed := if distance < 5 then true else v.committed }

/-- `SimpleTrafficSimulator._update_positions`: update every vehicle using
its approach's signal (`signal_state.get(approach, 'red')`), then delete
the vehicles whose distance dropped to 0 or below, counting them as
cleared. -/
def update_positions (s : SimState) (signal_state : List (String × String)) (dt : ℚ) :
    SimState :=
  let updated := s.vehicles.map
    (fun v => updateVehicleSignal (dictGetD signal_state v.approach SignalState.RED) dt v)
  let kept := updated.filter (fun v => ¬ v.distance_m ≤ 0)
  let cleared := updated.filter (fun v => v.distance_m ≤ 0)
  { s with vehicles := kept, cleared_count := s.cleared_count + cleared.length }

/-- `SimpleTrafficSimulator.generate_timestep(signal_state, dt)`: spawn
phase, movement phase, sensor DataFrame assembly (spawned rows plus all
live vehicles), timestamp column, timestep increment. -/
def generate_timestep (s : SimState) (signal_state : List (String × String)) (dt : ℚ) :
    SimState × List SensorRow :=
  let r1 := spawn_vehicles s
  let r2 := spawn_pedestrians r1.1
  let r3 := spawn_emergency_vehicles r2.1
  let s4 := update_positions r3.1 signal_state dt
  let df_data := r1.2 ++ r2.2 ++ r3.2 ++ s4.vehicles.map (vehicle_to_dict s4.current_timestep)
  let df := df_data.map (fun row => { row with timestamp := s4.current_timestep })
  ({ s4 with current_timestep := s4.current_timestep + 1 }, df)

/-- `SimpleTrafficSimulator.get_stats`. -/
structure SimStats where
  spawned_count : ℕ
  cleared_count : ℕ
  current_vehicles : ℕ
  current_pedestrians : ℕ
  current_emergencies : ℕ
  total_current_objects : ℕ

/-- `SimpleTrafficSimulator.get_stats`. -/
def get_stats (s : SimState) : SimStats :=
  { spawned_count := s.spawned_count
    cleared_count := s.cleared_count
    current_vehicles := s.vehicles.length
    current_pedestrians := s.pedestrians.length
    current_emergencies := s.emergency_vehicles.length
    total_current_objects :=
      s.vehicles.length + s.pedestrians.length + s.emergency_vehicles.length }

/-- Run `generate_timestep` over a list of (signal state, dt) inputs. -/
def runSteps (s : SimState) : List (List (String × String) × ℚ) → SimState
  | [] => s
  | (m, dt) :: rest => runSteps (generate_timestep s m dt).1 rest

end SimpleTrafficSimulator

/-- One entry of the `AStarPriorityQueue` heap list: the
`(priority, counter, obj)` tuple pushed onto `heapq`. -/
structure QEntry (α : Type) where
  priority : ℚ
  counter : ℕ
  obj : α

namespace QEntry

/-- The (non-strict) total preorder `heapq` compares entries by: priority
first, then the strictly increasing insertion counter. -/
def lexLe {α : Type} (a b : QEntry α) : Prop :=
  a.priority < b.priority ∨ (a.priority = b.priority ∧ a.counter ≤ b.counter)

/-- Strict version of `lexLe`; on entries with distinct counters the two
agree. -/
def lexLt {α : Type} (a b : QEntry α) : Prop :=
  a.priority < b.priority ∨ (a.priority = b.priority ∧ a.counter < b.counter)

instance {α : Type} : DecidableRel (lexLe (α := α)) := fun a b => by
  unfold lexLe; infer_instance

instance {α : Type} : DecidableRel (lexLt (α := α)) := fun a b => by
  unfold lexLt; infer_instance

instance {α : Type} : IsTrans (QEntry α) lexLe where
  trans a b c hab hbc := by
    rcases hab with h1 | ⟨h1, h1c⟩ <;> rcases hbc with h2 | ⟨h2, h2c⟩
    · exact Or.inl (lt_trans h1 h2)
    · exact Or.inl (h2 ▸ h1)
    · exact Or.inl (h1 ▸ h2)
    · exact Or.inr ⟨h1.trans h2, le_trans h1c h2c⟩

instance {α : Type} : IsTotal (QEntry α) lexLe where
  total a b := by
    rcases lt_trichotomy a.priority b.priority with h | h | h
    · exact Or.inl (Or.inl h)
    · rcases Nat.le_total a.counter b.counter with hc | hc
      · exact Or.inl (Or.inr ⟨h, hc⟩)
      · exact Or.inr (Or.inr ⟨h.symm, hc⟩)
    · exact Or.inr (Or.inl h)

instance {α : Type} : IsAntisymm (QEntry α) lexLt where
  antisymm a b hab hba := by
    exfalso
    rcases hab with h1 | ⟨h1, h1c⟩ <;> rcases hba with h2 | ⟨h2, h2c⟩
    · exact lt_asymm h1 h2
    · exact absurd h1 (h2 ▸ lt_irrefl _)
    · exact absurd h2 (h1 ▸ lt_irrefl _)
    · omega

end QEntry

/-- `core/a_star_priority_queue.py` `AStarPriorityQueue`.  The Python
implementation stores `(priority, counter, obj)` tuples in a `heapq`
min-heap; the heap is modelled by its documented observable semantics, as
the list of entries in the exact order `heapq` pops them (ascending
`lexLe`). -/
structure AStarPriorityQueue (α : Type) where
  queue : List (QEntry α)
  counter : ℕ

namespace AStarPriorityQueue

/-- `AStarPriorityQueue.__init__`. -/
def empty {α : Type} : AStarPriorityQueue α := ⟨[], 0⟩

/-- `AStarPriorityQueue.push(priority, obj)`: `heapq.heappush` of the
tuple `(priority, self._counter, obj)`, then increment the counter.  On
the sorted-list model a heap push is an ordered insert. -/
def push {α : Type} (q : AStarPriorityQueue α) (priority : ℚ) (obj : α) :
    AStarPriorityQueue α :=
  { queue := q.queue.orderedInsert QEntry.lexLe ⟨priority, q.counter, obj⟩
    counter := q.counter + 1 }

/-- `AStarPriorityQueue.pop`: `None` on an empty queue, otherwise remove
and return the most urgent object (`heapq.heappop`). -/
def pop {α : Type} (q : AStarPriorityQueue α) : Option α × AStarPriorityQueue α :=
  match q.queue with
  | [] => (none, q)
  | e :: rest => (some e.obj, { q with queue := rest })

/-- The `for _ in range(max_k)` loop of `pop_all`: pop repeatedly,
collecting the objects that are not `None`. -/
def popLoop {α : Type} : ℕ → AStarPriorityQueue α → List α × AStarPriorityQueue α
  | 0, q => ([], q)
  | n + 1, q =>
    let (o, q1) := q.pop
    let (rest, q2) := popLoop n q1
    (match o with
     | none => rest
     | some x => x :: rest, q2)

/-- `AStarPriorityQueue.pop_all(k)`.  The source computes
`max_k = min(k or len(self._queue), len(self._queue))`: a missing `k`
(Python `None`) and `k = 0` are both falsy, so both pop the whole queue. -/
def pop_all {α : Type} (q : AStarPriorityQueue α) (k : Option ℕ) :
    List α × AStarPriorityQueue α :=
  let kOrLen : ℕ :=
    match k with
    | none => q.queue.length
    | some 0 => q.queue.length
    | some (n + 1) => n + 1
  popLoop (min kOrLen q.queue.length) q

/-- `AStarPriorityQueue.peek`. -/
def peek {α : Type} (q : AStarPriorityQueue α) : Option α :=
  match q.queue with
  | [] => none
  | e :: _ => some e.obj

/-- `AStarPriorityQueue.size`. -/
def size {α : Type} (q : AStarPriorityQueue α) : ℕ := q.queue.length

/-- A queue built by a sequence of `push(priority, obj)` operations,
starting from a fresh queue. -/
def fromOps {α : Type} (ops : List (ℚ × α)) : AStarPriorityQueue α :=
  ops.foldl (fun q op => q.push op.1 op.2) empty

/-- Annotate a push sequence with insertion counters starting at `c`. -/
def annotateFrom {α : Type} (c : ℕ) : List (ℚ × α) → List (QEntry α)
  | [] => []
  | (p, x) :: rest => ⟨p, c, x⟩ :: annotateFrom (c + 1) rest

/-- The push sequence annotated with insertion order, 0-based. -/
def annotate {α : Type} (ops : List (ℚ × α)) : List (QEntry α) :=
  annotateFrom 0 ops

/-- Specification ordering, straight from the spec's words: the pushed
objects sorted in ascending priority order, ties among equal priorities
broken by strict insertion order. -/
def specOrder {α : Type} (ops : List (ℚ × α)) : List (QEntry α) :=
  (annotate ops).insertionSort QEntry.lexLe

end AStarPriorityQueue

/-- `infrastructure/agent/replay_buffer.py` `ReplayBuffer`: a bounded
FIFO deque of transitions. -/
structure ReplayBuffer (α : Type) where
  capacity : ℕ
  buffer : List α

namespace ReplayBuffer

/-- `ReplayBuffer.push`: `deque(maxlen=capacity)` append — drop from the
front once over capacity. -/
def push {α : Type} (b : ReplayBuffer α) (x : α) : ReplayBuffer α :=
  let grown := b.buffer ++ [x]
  { b with buffer := if b.capacity < grown.length then grown.drop (grown.length - b.capacity) else grown }

/-- `ReplayBuffer.sample(batch_size)`.  The requested batch is clamped to
the buffer length; `np.random.choice(len, batch, replace=False)` is
modelled by the `choice` argument, a function from `(population size,
sample size)` to the drawn index list (the theorems assume only its
documented contract: `sample size` distinct indices below the population
size).  `zip(*[...])` raises `ValueError` when the selection is empty,
which the model returns as an error. -/
def sample {α : Type} [Inhabited α] (b : ReplayBuffer α) (batch_size : ℕ)
    (choice : ℕ → ℕ → List ℕ) : Except String (List α) :=
  let bs := min batch_size b.buffer.length
  let indices := choice b.buffer.length bs
  let selected := indices.map (fun i => b.buffer.getD i default)
  if selected.isEmpty then .error "not enough values to unpack" else .ok selected

end ReplayBuffer

/-
Theorems.  First general helper lemmas about the embedded definitions,
then one theorem per specification claim (with witnesses and
counterexamples where required).
-/

theorem dictGet?_dictSet {α : Type} (m : List (String × α)) (k : String) (v : α) :
    dictGet? (dictSet m k v) k = some v := by
  induction m with
  | nil => simp [dictSet, dictGet?]
  | cons p rest ih =>
    by_cases h : p.1 = k
    · simp [dictSet, h, dictGet?]
    · simpa [dictSet, h, dictGet?, List.find?] using ih

theorem MathUtils.gini_nonneg (values : List ℚ) : 0 ≤ gini_coefficient values := by
  unfold gini_coefficient
  split
  · exact le_refl 0
  split
  · exact le_refl 0
  · exact le_min (le_max_right _ _) (by norm_num)

/-- C7: `MathUtils.gini_coefficient` returns exactly 0 for every list of
four equal non-negative queue sizes, and for every all-zero or empty
list, and returns `3/4` (the theoretical maximum for four entries) on
`[0, 0, 0, 10]`. -/
theorem C7_gini_values :
    (∀ c : ℚ, 0 ≤ c → MathUtils.gini_coefficient [c, c, c, c] = 0) ∧
    (∀ l : List ℚ, (∀ x ∈ l, x = 0) → MathUtils.gini_coefficient l = 0) ∧
    MathUtils.gini_coefficient [] = 0 ∧
    MathUtils.gini_coefficient [0, 0, 0, 10] = 3/4 := by
  refine ⟨?_, ?_, ?_, ?_⟩
  · intro c hc
    by_cases h0 : c = 0
    · subst h0
      unfold MathUtils.gini_coefficient
      rw [if_neg (by simp), if_pos (by simp)]
    · have hsum : ([c, c, c, c] : List ℚ).sum = 4 * c := by simp; ring
      have hsort : List.insertionSort (· ≤ ·) [c, c, c, c] = [c, c, c, c] :=
        List.Sorted.insertionSort_eq (by simp [List.sorted_cons])
      unfold MathUtils.gini_coefficient
      rw [if_neg (by simp), if_neg (by simp [hsum, h0])]
      simp only [hsort, List.enum, List.enumFrom, List.map, List.sum_cons, List.sum_nil,
        List.length, hsum]
      have hval : (2 : ℚ) * (((0 : ℕ) + 1 : ℚ) * c + ((((1 : ℕ) : ℚ) + 1) * c +
          ((((2 : ℕ) : ℚ) + 1) * c + (((((3 : ℕ) : ℚ) + 1) * c + 0))))) /
          (((4 : ℕ) : ℚ) * (4 * c)) - (((4 : ℕ) : ℚ) + 1) / ((4 : ℕ) : ℚ) = 0 := by
        push_cast
        field_simp
        ring
      rw [hval]
      norm_num [npClip]
  · intro l hl
    match l with
    | [] => rfl
    | a :: t =>
      unfold MathUtils.gini_coefficient
      rw [if_neg (by simp), if_pos (List.sum_eq_zero hl)]
  · rfl
  · norm_num [MathUtils.gini_coefficient, npClip, List.insertionSort, List.orderedInsert,
      List.enum, List.enumFrom]

/-- C7 witness: the four-equal-queues case at queue size 3, through the
theorem. -/
theorem C7_gini_values_witness : MathUtils.gini_coefficient [3, 3, 3, 3] = 0 :=
  C7_gini_values.1 3 (by norm_num)

/-- C6: with the configured weights, `HybridRewardCalculator.calculate`
strictly decreases by the safety weight (100) for every additional risky
event, and for non-negative queue sizes and pedestrian counts the
combined throughput + fairness + pedestrian contribution of one tick is
at most 0, hence strictly below the magnitude of a single risky event's
penalty (the safety weight). -/
theorem C6_safety_dominance :
    (∀ (q : List (String × ℤ)) (w : List (String × ℚ)) (p r : ℕ),
        HybridRewardCalculator.calculate HybridRewardCalculator.init q w (r + 1) p =
          HybridRewardCalculator.calculate HybridRewardCalculator.init q w r p -
            RewardConstants.SAFETY_WEIGHT) ∧
    (∀ (q : List (String × ℤ)) (w : List (String × ℚ)) (p r₁ r₂ : ℕ), r₁ < r₂ →
        HybridRewardCalculator.calculate HybridRewardCalculator.init q w r₂ p <
          HybridRewardCalculator.calculate HybridRewardCalculator.init q w r₁ p) ∧
    (∀ (q : List (String × ℤ)) (p : ℕ), (∀ e ∈ q, 0 ≤ e.2) →
        HybridRewardCalculator.throughput_reward HybridRewardCalculator.init q +
          HybridRewardCalculator.fairness_reward HybridRewardCalculator.init q +
          HybridRewardCalculator.pedestrian_reward HybridRewardCalculator.init p ≤ 0 ∧
        HybridRewardCalculator.throughput_reward HybridRewardCalculator.init q +
          HybridRewardCalculator.fairness_reward HybridRewardCalculator.init q +
          HybridRewardCalculator.pedestrian_reward HybridRewardCalculator.init p <
          RewardConstants.SAFETY_WEIGHT) := by
  have hsafe : HybridRewardCalculator.init.safety_weight = 100 := rfl
  refine ⟨?_, ?_, ?_⟩
  · intro q w p r
    unfold HybridRewardCalculator.calculate HybridRewardCalculator.safety_reward
    rw [hsafe]
    show _ = _ - RewardConstants.SAFETY_WEIGHT
    rw [show RewardConstants.SAFETY_WEIGHT = (100 : ℚ) from rfl]
    push_cast
    ring
  · intro q w p r₁ r₂ h
    unfold HybridRewardCalculator.calculate HybridRewardCalculator.safety_reward
    rw [hsafe]
    have hcast : (r₁ : ℚ) < (r₂ : ℚ) := by exact_mod_cast h
    linarith
  · intro q p hq
    have hsum : 0 ≤ (HybridRewardCalculator.queueValues q).sum := by
      apply List.sum_nonneg
      intro x hx
      simp only [HybridRewardCalculator.queueValues, List.mem_map] at hx
      obtain ⟨e, he, rfl⟩ := hx
      exact_mod_cast hq e he
    have hg : 0 ≤ MathUtils.gini_coefficient (HybridRewardCalculator.queueValues q) :=
      MathUtils.gini_nonneg _
    have hp : (0 : ℚ) ≤ (p : ℚ) := by positivity
    unfold HybridRewardCalculator.throughput_reward HybridRewardCalculator.fairness_reward
      HybridRewardCalculator.pedestrian_reward
    have h1 : HybridRewardCalculator.init.throughput_weight = 1 := rfl
    have h2 : HybridRewardCalculator.init.fairness_weight = 1/2 := rfl
    have h3 : HybridRewardCalculator.init.pedestrian_weight = 2 := rfl
    rw [h1, h2, h3]
    constructor
    · nlinarith
    · rw [show RewardConstants.SAFETY_WEIGHT = (100 : ℚ) from rfl]
      nlinarith

/-- C6 witness: the exact per-event decrease and the dominance bound at a
concrete queue configuration, through the theorem. -/
theorem C6_safety_dominance_witness :
    HybridRewardCalculator.calculate HybridRewardCalculator.init [("N", 2)] [] 1 0 =
      HybridRewardCalculator.calculate HybridRewardCalculator.init [("N", 2)] [] 0 0 -
        RewardConstants.SAFETY_WEIGHT ∧
    HybridRewardCalculator.calculate HybridRewardCalculator.init [("N", 2)] [] 1 0 <
      HybridRewardCalculator.calculate HybridRewardCalculator.init [("N", 2)] [] 0 0 ∧
    HybridRewardCalculator.throughput_reward HybridRewardCalculator.init [("N", 2)] +
      HybridRewardCalculator.fairness_reward HybridRewardCalculator.init [("N", 2)] +
      HybridRewardCalculator.pedestrian_reward HybridRewardCalculator.init 0 <
      RewardConstants.SAFETY_WEIGHT :=
  ⟨C6_safety_dominance.1 [("N", 2)] [] 0 0,
   C6_safety_dominance.2.1 [("N", 2)] [] 0 0 1 (by norm_num),
   (C6_safety_dominance.2.2 [("N", 2)] 0 (by intro e he; simp at he; simp [he])).2⟩

/-- C8: after constructing the simulator and running any number of
`generate_timestep` calls, `reset` leaves `current_timestep = 0` and zero
live tracked objects, and an immediately repeated `reset` leaves the
state unchanged (idempotence). -/
theorem C8_reset_idempotent (seed : ℕ) (config : Option SimConfig) (stream : ℕ → ℚ)
    (steps : List (List (String × String) × ℚ)) :
    (SimpleTrafficSimulator.reset
        (SimpleTrafficSimulator.runSteps (SimpleTrafficSimulator.init seed config stream)
          steps)).current_timestep = 0 ∧
    (SimpleTrafficSimulator.get_stats
        (SimpleTrafficSimulator.reset
          (SimpleTrafficSimulator.runSteps (SimpleTrafficSimulator.init seed config stream)
            steps))).total_current_objects = 0 ∧
    SimpleTrafficSimulator.reset
        (SimpleTrafficSimulator.reset
          (SimpleTrafficSimulator.runSteps (SimpleTrafficSimulator.init seed config stream)
            steps)) =
      SimpleTrafficSimulator.reset
        (SimpleTrafficSimulator.runSteps (SimpleTrafficSimulator.init seed config stream)
          steps) :=
  ⟨rfl, rfl, rfl⟩

theorem SimpleTrafficSimulator.spawnVehicleAt_timestep (a : String)
    (acc : SimState × List SensorRow) :
    ((spawnVehicleAt a acc).1).current_timestep = acc.1.current_timestep := by
  obtain ⟨s, rows⟩ := acc
  simp only [spawnVehicleAt, Rng.draw]
  split <;> rfl

theorem SimpleTrafficSimulator.spawn_vehicles_timestep (s : SimState) :
    (spawn_vehicles s).1.current_timestep = s.current_timestep := by
  simp [spawn_vehicles, Directions.ALL, spawnVehicleAt_timestep]

theorem SimpleTrafficSimulator.spawnPedestrianAt_timestep (a : String)
    (acc : SimState × List SensorRow) :
    ((spawnPedestrianAt a acc).1).current_timestep = acc.1.current_timestep := by
  obtain ⟨s, rows⟩ := acc
  simp only [spawnPedestrianAt, Rng.draw]
  split <;> rfl

theorem SimpleTrafficSimulator.spawn_pedestrians_timestep (s : SimState) :
    (spawn_pedestrians s).1.current_timestep = s.current_timestep := by
  simp [spawn_pedestrians, Directions.ALL, spawnPedestrianAt_timestep]

theorem SimpleTrafficSimulator.spawn_emergency_vehicles_timestep (s : SimState) :
    (spawn_emergency_vehicles s).1.current_timestep = s.current_timestep := by
  simp only [spawn_emergency_vehicles, Rng.draw]
  split <;> rfl

theorem SimpleTrafficSimulator.generate_timestep_increments (s : SimState)
    (m : List (String × String)) (dt : ℚ) :
    (generate_timestep s m dt).1.current_timestep = s.current_timestep + 1 := by
  show (update_positions ((spawn_emergency_vehicles
      ((spawn_pedestrians ((spawn_vehicles s).1)).1)).1) m dt).current_timestep + 1 =
    s.current_timestep + 1
  show ((spawn_emergency_vehicles
      ((spawn_pedestrians ((spawn_vehicles s).1)).1)).1).current_timestep + 1 =
    s.current_timestep + 1
  rw [spawn_emergency_vehicles_timestep, spawn_pedestrians_timestep, spawn_vehicles_timestep]

/-- C3 (amended): `SimpleTrafficSimulator.__init__` performs no validation
of the configured spawn rates — construction always succeeds and simply
stores the defaults updated with the configured overrides, whatever their
values — and `generate_timestep` is total: for every internal state it
produces a well-defined successor state (with the timestep incremented),
never an error. -/
theorem C3_no_spawn_rate_validation :
    (∀ (seed : ℕ) (config : SimConfig) (stream : ℕ → ℚ),
        (SimpleTrafficSimulator.init seed (some config) stream).spawn_rates =
          dictUpdate SimpleTrafficSimulator.defaultSpawnRates config.spawn_rates ∧
        (SimpleTrafficSimulator.init seed (some config) stream).pedestrian_spawn_rates =
          dictUpdate SimpleTrafficSimulator.defaultPedSpawnRates
            config.pedestrian_spawn_rates) ∧
    (∀ (s : SimState) (m : List (String × String)) (dt : ℚ),
        (SimpleTrafficSimulator.generate_timestep s m dt).1.current_timestep =
          s.current_timestep + 1) :=
  ⟨fun _ _ _ => ⟨rfl, rfl⟩,
   fun s m dt => SimpleTrafficSimulator.generate_timestep_increments s m dt⟩

/-- C3 counterexample: a spawn rate of `3/2`, outside `[0,1]`, is silently
accepted at construction and stored, refuting the claim that construction
raises a configuration error for out-of-range rates. -/
theorem C3_counterexample :
    dictGet? (SimpleTrafficSimulator.init 42
        (some { spawn_rates := [("N", 3/2)] }) (fun _ => 0)).spawn_rates "N" =
      some (3/2) ∧
    ¬ ((3/2 : ℚ) ≤ 1) := by
  constructor
  · rfl
  · norm_num

/-- C4 (amended): under an orange signal the per-vehicle movement update
of `_update_positions` sets the speed to `max (speed - dt) 5`: the result
never exceeds `max speed 5`, is never below the moderate floor 5, and in
particular never exceeds the pre-update speed when that speed is already
at least the floor.  (When the pre-update speed is below 5 the update
raises it to the floor, so the unconditional claim fails — see the
counterexample.) -/
theorem C4_orange_deceleration (v : Vehicle) (dt : ℚ) (hdt : 0 ≤ dt) :
    (SimpleTrafficSimulator.updateVehicleSignal SignalState.ORANGE dt v).speed_m_s =
      max (v.speed_m_s - dt) 5 ∧
    5 ≤ (SimpleTrafficSimulator.updateVehicleSignal SignalState.ORANGE dt v).speed_m_s ∧
    (SimpleTrafficSimulator.updateVehicleSignal SignalState.ORANGE dt v).speed_m_s ≤
      max v.speed_m_s 5 ∧
    (5 ≤ v.speed_m_s →
      (SimpleTrafficSimulator.updateVehicleSignal SignalState.ORANGE dt v).speed_m_s ≤
        v.speed_m_s) := by
  have hs : (SimpleTrafficSimulator.updateVehicleSignal SignalState.ORANGE dt v).speed_m_s =
      max (v.speed_m_s - dt) 5 := by
    unfold SimpleTrafficSimulator.updateVehicleSignal
    rw [if_neg (by decide), if_pos rfl]
    ring_nf
  refine ⟨hs, ?_, ?_, ?_⟩
  · rw [hs]; exact le_max_right _ _
  · rw [hs]
    exact max_le_max (by linarith) le_rfl
  · intro h5
    rw [hs]
    exact max_le (by linarith) h5

/-- C4 witness: the theorem applied to a vehicle travelling at 7 m/s with
`dt = 1`. -/
theorem C4_orange_deceleration_witness :
    (SimpleTrafficSimulator.updateVehicleSignal SignalState.ORANGE 1
        { vehicle_id := "V", approach := "N", distance_m := 100, speed_m_s := 7,
          movement := "straight", created_at := 0 }).speed_m_s ≤ 7 :=
  (C4_orange_deceleration
    { vehicle_id := "V", approach := "N", distance_m := 100, speed_m_s := 7,
      movement := "straight", created_at := 0 } 1 (by norm_num)).2.2.2 (by norm_num)

/-- C4 counterexample: a vehicle approaching on orange at 2 m/s (below the
floor 5) is sped up to 5 m/s by one movement phase, refuting the claim
that the post-update speed is at most the pre-update speed. -/
theorem C4_counterexample :
    ((SimpleTrafficSimulator.update_positions
        { seed := 0, spawn_rates := [], pedestrian_spawn_rates := [],
          vehicles := [{ vehicle_id := "V", approach := "N", distance_m := 100,
                         speed_m_s := 2, movement := "straight", created_at := 0 }],
          pedestrians := [], emergency_vehicles := [], current_timestep := 0,
          spawned_count := 0, cleared_count := 0, rng := ⟨fun _ => 0, 0⟩ }
        [("N", "orange")] 1).vehicles.map Vehicle.speed_m_s) = [5] ∧
    ¬ ((5 : ℚ) ≤ 2) := by
  constructor
  · have h1 : ¬ ("orange" : String) = "green" := by decide
    norm_num [SimpleTrafficSimulator.update_positions,
      SimpleTrafficSimulator.updateVehicleSignal, dictGetD, dictGet?, List.find?,
      List.filter, SignalState.RED, SignalState.GREEN, SignalState.ORANGE, max_def, h1]
  · norm_num

/-- C2 (amended): `SignalController.set_signal` succeeds — recording the
color and duration and resetting `time_in_phase` to 0 — exactly when the
direction is one of N/S/E/W and the state is one of green, red, orange;
any other direction or state (including `all_red`) raises a
`ValueError`. -/
theorem C2_set_signal_validation (c : SignalController) (direction state : String)
    (duration : ℚ) :
    (direction ∈ Directions.ALL →
      state ∈ [SignalState.GREEN, SignalState.RED, SignalState.ORANGE] →
      SignalController.set_signal c direction state duration =
        .ok { c with signal_state := dictSet c.signal_state direction state,
                     phase_duration := duration, time_in_phase := 0 } ∧
      dictGet? (dictSet c.signal_state direction state) direction = some state) ∧
    ((direction ∉ Directions.ALL ∨
        state ∉ [SignalState.GREEN, SignalState.RED, SignalState.ORANGE]) →
      ∃ e, SignalController.set_signal c direction state duration = .error e) := by
  constructor
  · intro hd hs
    refine ⟨?_, dictGet?_dictSet _ _ _⟩
    unfold SignalController.set_signal
    rw [if_neg (not_not_intro hd), if_neg (not_not_intro hs)]
  · intro h
    unfold SignalController.set_signal
    by_cases hd : direction ∈ Directions.ALL
    · have hs : state ∉ [SignalState.GREEN, SignalState.RED, SignalState.ORANGE] := by
        tauto
      rw [if_neg (not_not_intro hd), if_pos hs]
      exact ⟨_, rfl⟩
    · rw [if_pos hd]
      exact ⟨_, rfl⟩

/-- C2 witness: the theorem applied to a valid call (`N`, `green`) and to
an invalid direction (`X`). -/
theorem C2_set_signal_validation_witness :
    (SignalController.set_signal SignalController.init "N" "green" 5 =
      .ok { SignalController.init with
            signal_state := dictSet SignalController.init.signal_state "N" "green"
            phase_duration := 5
            time_in_phase := 0 } ∧
     dictGet? (dictSet SignalController.init.signal_state "N" "green") "N" =
       some "green") ∧
    ∃ e, SignalController.set_signal SignalController.init "X" "green" 5 = .error e :=
  ⟨(C2_set_signal_validation SignalController.init "N" "green" 5).1 (by decide) (by decide),
   (C2_set_signal_validation SignalController.init "X" "green" 5).2 (Or.inl (by decide))⟩

/-- C2 counterexample: `all_red` is a member of the signal-state set in
`core/constants.py`, yet `set_signal` rejects it, refuting the claim that
every state in {green, red, orange, all_red} succeeds. -/
theorem C2_counterexample :
    SignalController.set_signal SignalController.init "N" SignalState.ALL_RED 5 =
      .error "Invalid signal state: all_red" := rfl

theorem StateEncoder.normalize_nonneg (v a b : ℚ) : 0 ≤ normalize v a b := by
  unfold normalize npClip
  split
  · norm_num
  · exact le_min (le_max_right _ _) (by norm_num)

theorem StateEncoder.normalize_le_one (v a b : ℚ) : normalize v a b ≤ 1 := by
  unfold normalize npClip
  split
  · norm_num
  · exact min_le_right _ _

theorem StateEncoder.objectFeatures_bounds (nrm : Normalization) (o : SensorRow) :
    ∀ x ∈ objectFeatures nrm o, 0 ≤ x ∧ x ≤ 1 := by
  intro x hx
  simp only [objectFeatures, List.mem_cons, List.not_mem_nil, or_false] at hx
  rcases hx with rfl | rfl | rfl | rfl | rfl | rfl
  · constructor <;> split_ifs <;> norm_num
  · exact ⟨normalize_nonneg _ _ _, normalize_le_one _ _ _⟩
  · exact ⟨normalize_nonneg _ _ _, normalize_le_one _ _ _⟩
  · exact ⟨normalize_nonneg _ _ _, normalize_le_one _ _ _⟩
  · exact ⟨normalize_nonneg _ _ _, normalize_le_one _ _ _⟩
  · constructor <;> split_ifs <;> norm_num

theorem StateEncoder.length_objectFeatures (nrm : Normalization) (o : SensorRow) :
    (objectFeatures nrm o).length = 6 := rfl

theorem StateEncoder.flatten_features_length (nrm : Normalization) (l : List SensorRow) :
    ((l.map (objectFeatures nrm)).flatten).length = 6 * l.length := by
  induction l with
  | nil => simp
  | cons a t ih =>
    simp only [List.map_cons, List.flatten_cons, List.length_append,
      length_objectFeatures, List.length_cons, ih]
    ring

theorem StateEncoder.nsmallest_length_le (k : ℕ) (df : List SensorRow) :
    (nsmallest k df).length ≤ k :=
  List.length_take_le _ _

theorem StateEncoder.length_encode_top_objects (nrm : Normalization) (df : List SensorRow) :
    (encode_top_objects nrm df).length = 30 := by
  unfold encode_top_objects
  split
  · rfl
  · have h6 := flatten_features_length nrm (nsmallest TOP_K_OBJECTS df)
    have hk : (nsmallest TOP_K_OBJECTS df).length ≤ 5 := nsmallest_length_le _ _
    simp only [List.length_append, List.length_replicate, h6]
    show 6 * (nsmallest TOP_K_OBJECTS df).length +
      (30 - 6 * (nsmallest TOP_K_OBJECTS df).length) = 30
    omega

theorem StateEncoder.encode_top_objects_bounds (nrm : Normalization) (df : List SensorRow) :
    ∀ x ∈ encode_top_objects nrm df, 0 ≤ x ∧ x ≤ 1 := by
  intro x hx
  unfold encode_top_objects at hx
  split at hx
  · rw [List.eq_of_mem_replicate hx]
    norm_num
  · rcases List.mem_append.mp hx with h | h
    · rcases List.mem_flatten.mp h with ⟨l, hl, hxl⟩
      rcases List.mem_map.mp hl with ⟨o, _, rfl⟩
      exact objectFeatures_bounds nrm o x hxl
    · rw [List.eq_of_mem_replicate h]
      norm_num

theorem StateEncoder.length_encode_signal_state (m : List (String × String)) :
    (encode_signal_state m).length = 4 := rfl

theorem StateEncoder.encode_signal_state_bounds (m : List (String × String)) :
    ∀ x ∈ encode_signal_state m, 0 ≤ x ∧ x ≤ 1 := by
  intro x hx
  rcases List.mem_map.mp hx with ⟨d, _, rfl⟩
  unfold signalFlag
  split <;> norm_num

theorem StateEncoder.length_encode_wait_times (nrm : Normalization)
    (w : List (String × ℚ)) : (encode_wait_times nrm w).length = 4 := rfl

theorem StateEncoder.encode_wait_times_bounds (nrm : Normalization)
    (w : List (String × ℚ)) : ∀ x ∈ encode_wait_times nrm w, 0 ≤ x ∧ x ≤ 1 := by
  intro x hx
  rcases List.mem_map.mp hx with ⟨d, _, rfl⟩
  exact ⟨normalize_nonneg _ _ _, normalize_le_one _ _ _⟩

theorem StateEncoder.encode_extra_features_bounds (df : List SensorRow) (t : ℕ) :
    ∀ x ∈ encode_extra_features df t, 0 ≤ x ∧ x ≤ 1 := by
  intro x hx
  simp only [encode_extra_features, List.mem_cons, List.not_mem_nil, or_false] at hx
  rcases hx with rfl | rfl
  · refine ⟨le_min (by norm_num) (by positivity), min_le_left _ _⟩
  · exact ⟨normalize_nonneg _ _ _, normalize_le_one _ _ _⟩

theorem StateEncoder.encode_length (nrm : Normalization) (df : List SensorRow)
    (m : List (String × String)) (w : List (String × ℚ)) (t : ℕ) :
    (encode nrm df m w t).length = TOTAL_STATE_SIZE := by
  unfold encode
  rw [List.length_take, List.length_append, List.length_replicate]
  omega

theorem StateEncoder.encode_bounds (nrm : Normalization) (df : List SensorRow)
    (m : List (String × String)) (w : List (String × ℚ)) (t : ℕ) :
    ∀ x ∈ encode nrm df m w t, 0 ≤ x ∧ x ≤ 1 := by
  intro x hx
  unfold encode at hx
  have hx' := List.mem_of_mem_take hx
  rcases List.mem_append.mp hx' with h | h
  · rcases List.mem_append.mp h with h | h
    · rcases List.mem_append.mp h with h | h
      · rcases List.mem_append.mp h with h | h
        · exact encode_top_objects_bounds nrm df x h
        · exact encode_signal_state_bounds m x h
      · exact encode_wait_times_bounds nrm w x h
    · exact encode_extra_features_bounds df t x h
  · rw [List.eq_of_mem_replicate h]
    norm_num

/-- C1 (amended): for every snapshot, signal-state mapping, wait-times
mapping and time-in-phase, `StateEncoder.encode` returns a vector of
exactly `TOTAL_STATE_SIZE` entries — and that fixed size is
`5 × 6 + 4 + 4 + 2 = 40`, not 36 — with every entry in `[0,1]`
inclusive. -/
theorem C1_encode_dimension_and_range :
    ∀ (nrm : StateEncoder.Normalization) (df : List SensorRow)
      (m : List (String × String)) (w : List (String × ℚ)) (t : ℕ),
      (StateEncoder.encode nrm df m w t).length = 40 ∧
      StateEncoder.TOTAL_STATE_SIZE = 40 ∧
      ∀ x ∈ StateEncoder.encode nrm df m w t, 0 ≤ x ∧ x ≤ 1 :=
  fun nrm df m w t =>
    ⟨StateEncoder.encode_length nrm df m w t, rfl, StateEncoder.encode_bounds nrm df m w t⟩

/-- C1 counterexample: at a concrete input the encoded vector has 40
entries, refuting the claimed dimension of 36. -/
theorem C1_counterexample :
    (StateEncoder.encode StateEncoder.defaultNormalization [] [] [] 0).length = 40 ∧
    (40 : ℕ) ≠ 36 :=
  ⟨StateEncoder.encode_length _ _ _ _ _, by norm_num⟩

/-- C10: when the signal-state mapping omits one of the four approach
keys, that approach defaults to red: the movement phase applies the
strong-deceleration (red) branch to its vehicles, the encoder emits 0.0
for its signal flag, and `encode` still succeeds (returning the full
fixed-length vector). -/
theorem C10_missing_direction_defaults_red :
    ∀ (m : List (String × String)) (d : String), d ∈ Directions.ALL →
      dictGet? m d = none →
      StateEncoder.signalFlag m d = 0 ∧
      (∀ (v : Vehicle) (dt : ℚ), v.approach = d →
        SimpleTrafficSimulator.updateVehicleSignal
            (dictGetD m v.approach SignalState.RED) dt v =
          SimpleTrafficSimulator.updateVehicleSignal SignalState.RED dt v ∧
        (SimpleTrafficSimulator.updateVehicleSignal
            (dictGetD m v.approach SignalState.RED) dt v).speed_m_s =
          max (v.speed_m_s - 3 * dt) 0) ∧
      (∀ (nrm : StateEncoder.Normalization) (df : List SensorRow)
        (w : List (String × ℚ)) (t : ℕ),
        (StateEncoder.encode nrm df m w t).length = StateEncoder.TOTAL_STATE_SIZE) := by
  intro m d _ hnone
  have hdef : dictGetD m d SignalState.RED = SignalState.RED := by
    unfold dictGetD
    rw [hnone]
    rfl
  refine ⟨?_, ?_, ?_⟩
  · unfold StateEncoder.signalFlag
    rw [hdef, if_neg (by decide)]
  · intro v dt happ
    rw [happ, hdef]
    refine ⟨rfl, ?_⟩
    unfold SimpleTrafficSimulator.updateVehicleSignal
    rw [if_neg (by decide), if_neg (by decide)]
  · intro nrm df w t
    exact StateEncoder.encode_length nrm df m w t

/-- C10 witness: a mapping carrying only `S` treats `N` as red, through
the theorem. -/
theorem C10_missing_direction_defaults_red_witness :
    StateEncoder.signalFlag [("S", "green")] "N" = 0 ∧
    (SimpleTrafficSimulator.updateVehicleSignal
        (dictGetD [("S", "green")] "N" SignalState.RED) 1
        { vehicle_id := "V", approach := "N", distance_m := 100, speed_m_s := 9,
          movement := "straight", created_at := 0 }).speed_m_s = max (9 - 3 * 1) 0 ∧
    (StateEncoder.encode StateEncoder.defaultNormalization [] [("S", "green")] [] 0).length =
      StateEncoder.TOTAL_STATE_SIZE :=
  ⟨(C10_missing_direction_defaults_red [("S", "green")] "N" (by decide) (by decide)).1,
   ((C10_missing_direction_defaults_red [("S", "green")] "N" (by decide) (by decide)).2.1
      { vehicle_id := "V", approach := "N", distance_m := 100, speed_m_s := 9,
        movement := "straight", created_at := 0 } 1 rfl).2,
   (C10_missing_direction_defaults_red [("S", "green")] "N" (by decide) (by decide)).2.2
      StateEncoder.defaultNormalization [] [] 0⟩

theorem range_map_getD {α : Type} [Inhabited α] (l : List α) :
    (List.range l.length).map (fun i => l.getD i default) = l := by
  induction l with
  | nil => simp
  | cons a t ih =>
    rw [List.length_cons, List.range_succ_eq_map, List.map_cons, List.map_map]
    simp only [Function.comp_def, List.getD_cons_zero, List.getD_cons_succ]
    rw [ih]

theorem perm_range_of_nodup_of_lt (idxs : List ℕ) (n : ℕ) (hnd : idxs.Nodup)
    (hlt : ∀ i ∈ idxs, i < n) (hlen : idxs.length = n) : idxs.Perm (List.range n) := by
  apply List.Subperm.perm_of_length_le
  · exact hnd.subperm (fun i hi => List.mem_range.mpr (hlt i hi))
  · rw [List.length_range, hlen]

/-- C9 (amended): when the buffer is non-empty and the requested batch is
strictly larger than the number of stored transitions,
`ReplayBuffer.sample` does not raise: it clamps the batch to the buffer
length and returns every stored transition exactly once (a permutation of
the buffer).  On an empty buffer the unpacking step raises, so the claim
needs the non-emptiness hypothesis — see the counterexample. -/
theorem C9_sample_clamps (α : Type) [Inhabited α] (b : ReplayBuffer α) (batch_size : ℕ)
    (choice : ℕ → ℕ → List ℕ)
    (hne : b.buffer ≠ [])
    (hgt : b.buffer.length < batch_size)
    (hlen : (choice b.buffer.length (min batch_size b.buffer.length)).length =
      min batch_size b.buffer.length)
    (hnd : (choice b.buffer.length (min batch_size b.buffer.length)).Nodup)
    (hlt : ∀ i ∈ choice b.buffer.length (min batch_size b.buffer.length),
      i < b.buffer.length) :
    ReplayBuffer.sample b batch_size choice =
      .ok ((choice b.buffer.length (min batch_size b.buffer.length)).map
        (fun i => b.buffer.getD i default)) ∧
    ((choice b.buffer.length (min batch_size b.buffer.length)).map
        (fun i => b.buffer.getD i default)).Perm b.buffer := by
  have hmin : min batch_size b.buffer.length = b.buffer.length := by omega
  have hlenpos : 0 < b.buffer.length := List.length_pos.mpr hne
  have hperm : (choice b.buffer.length (min batch_size b.buffer.length)).Perm
      (List.range b.buffer.length) :=
    perm_range_of_nodup_of_lt _ _ hnd hlt (by rw [hlen, hmin])
  have hmap : ((choice b.buffer.length (min batch_size b.buffer.length)).map
      (fun i => b.buffer.getD i default)).Perm b.buffer := by
    have := hperm.map (fun i => b.buffer.getD i default)
    rwa [range_map_getD] at this
  refine ⟨?_, hmap⟩
  unfold ReplayBuffer.sample
  rw [if_neg]
  simp only [List.isEmpty_iff, List.map_eq_nil_iff]
  intro h
  rw [h] at hlen
  simp [hmin] at hlen
  omega

/-- C9 witness: a three-transition buffer sampled with batch size 5,
through the theorem. -/
theorem C9_sample_clamps_witness :
    ReplayBuffer.sample (⟨10, [1, 2, 3]⟩ : ReplayBuffer ℕ) 5 (fun _ _ => [2, 0, 1]) =
      .ok [3, 1, 2] ∧ ([3, 1, 2] : List ℕ).Perm [1, 2, 3] := by
  have h := C9_sample_clamps ℕ ⟨10, [1, 2, 3]⟩ 5 (fun _ _ => [2, 0, 1])
    (by decide) (by decide) (by decide) (by decide) (by decide)
  simpa using h

/-- C9 counterexample: on an empty buffer `sample` raises (the Python
`zip(*[...])` unpacking fails), refuting the claim for every undersized
buffer. -/
theorem C9_counterexample :
    ReplayBuffer.sample (⟨10, ([] : List ℕ)⟩ : ReplayBuffer ℕ) 1 (fun _ _ => []) =
      .error "not enough values to unpack" := rfl

theorem QEntry.lexLt_trans {α : Type} {a b c : QEntry α} (h1 : lexLt a b)
    (h2 : lexLt b c) : lexLt a c := by
  rcases h1 with h1 | ⟨h1, h1c⟩ <;> rcases h2 with h2 | ⟨h2, h2c⟩
  · exact Or.inl (lt_trans h1 h2)
  · exact Or.inl (h2 ▸ h1)
  · exact Or.inl (h1 ▸ h2)
  · exact Or.inr ⟨h1.trans h2, lt_trans h1c h2c⟩

theorem QEntry.lexLt_of_not_lexLe {α : Type} {a b : QEntry α} (h : ¬ lexLe a b) :
    lexLt b a := by
  unfold lexLe at h
  push_neg at h
  obtain ⟨hp, hc⟩ := h
  rcases eq_or_lt_of_le hp with heq | hlt
  · exact Or.inr ⟨heq, hc heq.symm⟩
  · exact Or.inl hlt

theorem QEntry.lexLt_of_lexLe_of_counter_gt {α : Type} {a b : QEntry α}
    (hle : lexLe a b) (hc : b.counter < a.counter) : lexLt a b := by
  rcases hle with h | ⟨hp, hcc⟩
  · exact Or.inl h
  · omega

theorem AStarPriorityQueue.sorted_orderedInsert_fresh {α : Type} (e : QEntry α)
    (l : List (QEntry α)) (hs : l.Sorted QEntry.lexLt)
    (hc : ∀ b ∈ l, b.counter < e.counter) :
    (l.orderedInsert QEntry.lexLe e).Sorted QEntry.lexLt := by
  induction l with
  | nil => simp [List.orderedInsert]
  | cons b t ih =>
    rw [List.orderedInsert]
    obtain ⟨hb, ht⟩ := List.sorted_cons.mp hs
    split_ifs with hle
    · refine List.sorted_cons.mpr ⟨?_, hs⟩
      intro x hx
      have heb : QEntry.lexLt e b :=
        QEntry.lexLt_of_lexLe_of_counter_gt hle (hc b (by simp))
      rcases List.mem_cons.mp hx with rfl | hx
      · exact heb
      · exact QEntry.lexLt_trans heb (hb x hx)
    · refine List.sorted_cons.mpr ⟨?_, ih ht (fun x hx => hc x (by simp [hx]))⟩
      intro x hx
      rcases (List.mem_orderedInsert _).mp hx with rfl | hx
      · exact QEntry.lexLt_of_not_lexLe hle
      · exact hb x hx

theorem AStarPriorityQueue.foldl_push_spec {α : Type} (ops : List (ℚ × α)) :
    ∀ (s : AStarPriorityQueue α),
      s.queue.Sorted QEntry.lexLt → (∀ e ∈ s.queue, e.counter < s.counter) →
      (ops.foldl (fun q op => q.push op.1 op.2) s).queue.Sorted QEntry.lexLt ∧
      (∀ e ∈ (ops.foldl (fun q op => q.push op.1 op.2) s).queue,
        e.counter < (ops.foldl (fun q op => q.push op.1 op.2) s).counter) ∧
      (ops.foldl (fun q op => q.push op.1 op.2) s).queue.Perm
        (s.queue ++ annotateFrom s.counter ops) ∧
      (ops.foldl (fun q op => q.push op.1 op.2) s).counter = s.counter + ops.length := by
  induction ops with
  | nil =>
    intro s h1 h2
    exact ⟨h1, h2, by simp [annotateFrom], rfl⟩
  | cons op rest ih =>
    intro s h1 h2
    have hsorted : (s.push op.1 op.2).queue.Sorted QEntry.lexLt :=
      sorted_orderedInsert_fresh _ _ h1 h2
    have hmem : ∀ e ∈ (s.push op.1 op.2).queue, e.counter < (s.push op.1 op.2).counter := by
      intro x hx
      rcases (List.mem_orderedInsert _).mp hx with rfl | hx
      · exact Nat.lt_succ_self _
      · exact Nat.lt_succ_of_lt (h2 x hx)
    obtain ⟨ha, hb, hc, hd⟩ := ih (s.push op.1 op.2) hsorted hmem
    rw [List.foldl_cons]
    refine ⟨ha, hb, ?_, ?_⟩
    · refine hc.trans ?_
      have hpush : (s.push op.1 op.2).queue.Perm
          ((⟨op.1, s.counter, op.2⟩ : QEntry α) :: s.queue) :=
        List.perm_orderedInsert _ _ _
      have hann : annotateFrom s.counter (op :: rest) =
          (⟨op.1, s.counter, op.2⟩ : QEntry α) :: annotateFrom (s.counter + 1) rest := by
        obtain ⟨p, x⟩ := op
        rfl
      rw [hann]
      exact (hpush.append_right _).trans List.perm_middle.symm
    · rw [hd]
      have hpc : (s.push op.1 op.2).counter = s.counter + 1 := rfl
      rw [hpc, List.length_cons]
      omega

theorem AStarPriorityQueue.annotateFrom_counter_lb {α : Type} (ops : List (ℚ × α)) :
    ∀ (c : ℕ) (e : QEntry α), e ∈ annotateFrom c ops → c ≤ e.counter := by
  induction ops with
  | nil =>
    intro c e he
    simp [annotateFrom] at he
  | cons op rest ih =>
    intro c e he
    obtain ⟨p, x⟩ := op
    rw [annotateFrom] at he
    rcases List.mem_cons.mp he with rfl | he
    · exact le_refl c
    · exact le_trans (Nat.le_succ c) (ih (c + 1) e he)

theorem AStarPriorityQueue.annotateFrom_pairwise {α : Type} (ops : List (ℚ × α)) :
    ∀ (c : ℕ), (annotateFrom c ops).Pairwise
      (fun a b : QEntry α => a.counter < b.counter) := by
  induction ops with
  | nil =>
    intro c
    simp [annotateFrom]
  | cons op rest ih =>
    intro c
    obtain ⟨p, x⟩ := op
    rw [annotateFrom]
    refine List.pairwise_cons.mpr ⟨?_, ih (c + 1)⟩
    intro e he
    have := annotateFrom_counter_lb rest (c + 1) e he
    show c < e.counter
    omega

theorem AStarPriorityQueue.fromOps_queue_eq_specOrder {α : Type} (ops : List (ℚ × α)) :
    (fromOps ops).queue = specOrder ops := by
  obtain ⟨hs, _, hp, _⟩ := foldl_push_spec ops empty (by simp [empty]) (by simp [empty])
  have hperm1 : (fromOps ops).queue.Perm (annotate ops) := by
    simpa [empty, annotate] using hp
  have hperm2 : (specOrder ops).Perm (annotate ops) := List.perm_insertionSort _ _
  have hsle : (specOrder ops).Sorted QEntry.lexLe := List.sorted_insertionSort _ _
  have hcnt : (annotate ops).Pairwise (fun a b : QEntry α => a.counter < b.counter) :=
    annotateFrom_pairwise ops 0
  have hne : (specOrder ops).Pairwise (fun a b : QEntry α => a.counter ≠ b.counter) := by
    refine (List.Perm.pairwise_iff (fun h => h.symm) hperm2).mpr ?_
    exact hcnt.imp (fun h => Nat.ne_of_lt h)
  have hslt : (specOrder ops).Sorted QEntry.lexLt := by
    refine (List.Pairwise.and hsle hne).imp ?_
    rintro a b ⟨hle, hnec⟩
    rcases hle with h | ⟨hp', hcc⟩
    · exact Or.inl h
    · exact Or.inr ⟨hp', lt_of_le_of_ne hcc hnec⟩
  exact List.eq_of_perm_of_sorted (hperm1.trans hperm2.symm) hs hslt

theorem AStarPriorityQueue.pop_fst {α : Type} (q : AStarPriorityQueue α) :
    q.pop.1 = q.queue.head?.map QEntry.obj := by
  rcases q with ⟨queue, counter⟩
  cases queue <;> rfl

theorem AStarPriorityQueue.popLoop_spec {α : Type} :
    ∀ (n : ℕ) (q : AStarPriorityQueue α),
      popLoop n q = ((q.queue.take n).map QEntry.obj, ⟨q.queue.drop n, q.counter⟩) := by
  intro n
  induction n with
  | zero =>
    intro q
    simp [popLoop]
  | succ n ih =>
    intro q
    rcases q with ⟨queue, counter⟩
    cases queue with
    | nil => simp [popLoop, pop, ih]
    | cons e rest => simp [popLoop, pop, ih]

theorem take_min_length {α : Type} (l : List α) (n : ℕ) :
    l.take (min n l.length) = l.take n := by
  by_cases h : n ≤ l.length
  · rw [min_eq_left h]
  · have h' : l.length ≤ n := le_of_not_le h
    rw [min_eq_right h', List.take_length, List.take_of_length_le h']

theorem AStarPriorityQueue.pop_all_some_pos {α : Type} (q : AStarPriorityQueue α)
    (k : ℕ) (hk : 1 ≤ k) :
    (q.pop_all (some k)).1 = (q.queue.take k).map QEntry.obj := by
  obtain ⟨n, rfl⟩ : ∃ n, k = n + 1 := ⟨k - 1, by omega⟩
  show (popLoop (min (n + 1) q.queue.length) q).1 = _
  rw [popLoop_spec, take_min_length]

/-- C5 (amended): for every sequence of pushes and every requested count
`k ≥ 1`, `pop_all(k)` removes and returns at most `k` objects, namely the
lowest-priority ones in ascending priority order with ties broken by
insertion order (the take-prefix of the stable specification ordering),
and `pop()` returns the single most urgent object, or `None` when the
queue is empty.  (For `k = 0` the Python expression `k or len(queue)` is
falsy, so `pop_all(0)` drains the whole queue instead of returning
nothing — see the counterexample.) -/
theorem C5_pop_all_ordered {α : Type} (ops : List (ℚ × α)) (k : ℕ) (hk : 1 ≤ k) :
    ((AStarPriorityQueue.fromOps ops).pop_all (some k)).1 =
      ((AStarPriorityQueue.specOrder ops).take k).map QEntry.obj ∧
    (((AStarPriorityQueue.fromOps ops).pop_all (some k)).1).length ≤ k ∧
    (AStarPriorityQueue.fromOps ops).pop.1 =
      (AStarPriorityQueue.specOrder ops).head?.map QEntry.obj := by
  have hq := AStarPriorityQueue.fromOps_queue_eq_specOrder ops
  have h1 := AStarPriorityQueue.pop_all_some_pos (AStarPriorityQueue.fromOps ops) k hk
  refine ⟨?_, ?_, ?_⟩
  · rw [h1, hq]
  · rw [h1, List.length_map]
    exact List.length_take_le _ _
  · rw [AStarPriorityQueue.pop_fst, hq]

/-- C5 witness: three pushes with a priority tie, popped with `k = 2`,
through the theorem: the minimum priority comes first and the tie at
priority 2 resolves to the first-inserted object. -/
theorem C5_pop_all_ordered_witness :
    ((AStarPriorityQueue.fromOps [((2 : ℚ), "a"), (1, "b"), (2, "c")]).pop_all
        (some 2)).1 = ["b", "a"] := by
  have h := (C5_pop_all_ordered [((2 : ℚ), "a"), (1, "b"), (2, "c")] 2 (by norm_num)).1
  rw [h]
  decide

/-- C5 counterexample: after a single push, `pop_all(0)` returns one
object rather than none, refuting the claim that `pop_all(k)` returns at
most `k` objects for every `k ≥ 0`. -/
theorem C5_counterexample :
    ¬ ((((AStarPriorityQueue.fromOps [((1 : ℚ), "a")]).pop_all (some 0)).1).length ≤ 0) := by
  have h : ((AStarPriorityQueue.fromOps [((1 : ℚ), "a")]).pop_all (some 0)).1 = ["a"] := by
    decide
  rw [h]
  norm_num

end TrafficRL
